import Mathlib

/-
Verification of the research-agent workflow engine (app/graph.py,
app/main.py, app/llama_client.py).

The stage functions, the router, the graph wiring and the two SSE
endpoints are embedded from the source.  The durable execution engine
itself (the LangGraph runtime: stream, checkpoints, interrupt/resume)
is an external library, so its contract is modelled from the spec
(sections 4.2 to 4.4) where a claim needs it; those definitions carry a
doc comment saying so.
-/

namespace App

/-- Option merge used for partial-state updates: a field set by the
update overwrites the stored field, an unset field keeps it (the
shallow merge by field name of TypedDict updates). -/
def orOpt {α : Type} : Option α → Option α → Option α
  | some a, _ => some a
  | none, b => b

/-- Locator of an evidence block, the dict shape used in
retrieve_node: a "type" tag plus the fields the two stub locators
carry (hint, or offset and length). -/
structure Locator where
  typ : String
  hint : Option String := none
  offset : Option Nat := none
  length : Option Nat := none
deriving DecidableEq

/-- Evidence block, the dict shape produced by retrieve_node. -/
structure Evidence where
  source_type : String
  title : Option String := none
  url : Option String := none
  doc_id : Option String := none
  accessed_at : Option String := none
  snippet : Option String := none
  locator : Option Locator := none
deriving DecidableEq

/-- Research plan.  The planner may return arbitrary JSON; this record
keeps exactly the fields the code writes in the fallback branch of
align_node and the single field later code reads (deliverables). -/
structure Plan where
  topic : Option String := none
  domain : Option String := none
  questions : List String := []
  sources : List String := []
  deliverables : Option (List String) := none
  planner_error : Option String := none
deriving DecidableEq

/-- Placeholder asset produced by synthesize_node for one deliverable:
the dict literal with keys _type, topic, status. -/
structure AssetItem where
  item_type : String
  topic : String
  status : String
deriving DecidableEq

/-- Citation object of assets.citations: ref_id is the enumerate index
into the evidence list. -/
structure Citation where
  ref_id : Nat
  title : Option String
  locator : Option Locator
deriving DecidableEq

/-- Assets dict built by synthesize_node: the non-citation deliverables
in insertion order, plus the citations list. -/
structure Assets where
  items : List (String × AssetItem)
  citations : List Citation
deriving DecidableEq

/-- ResearchState of app/graph.py.  topic and mode are always present
in reachable states (run_stream sets both in the initial input and
updates are additive), so they are plain fields; the stage-produced
fields are optional. -/
structure ResearchState where
  topic : String
  mode : String
  plan : Option Plan := none
  evidence : Option (List Evidence) := none
  assets : Option Assets := none
  status : Option String := none
deriving DecidableEq

/-- Partial-state update returned by a stage function. -/
structure StateUpdate where
  topic : Option String := none
  mode : Option String := none
  plan : Option Plan := none
  evidence : Option (List Evidence) := none
  assets : Option Assets := none
  status : Option String := none
deriving DecidableEq

/-- Shallow merge of a stage update into the state: fields returned by
the stage overwrite, others are kept. -/
def applyUpdate (s : ResearchState) (u : StateUpdate) : ResearchState :=
  { topic := (orOpt u.topic (some s.topic)).getD s.topic
    mode := (orOpt u.mode (some s.mode)).getD s.mode
    plan := orOpt u.plan s.plan
    evidence := orOpt u.evidence s.evidence
    assets := orOpt u.assets s.assets
    status := orOpt u.status s.status }

/-- Graph nodes registered in build_graph (end_node is the "end" node
added for the Command goto target of approve_plan_node). -/
inductive Node where
  | align
  | approve_plan
  | retrieve
  | synthesize
  | end_node
deriving DecidableEq

/-- Questions of the fallback plan in align_node, as f-strings over the
topic. -/
def fallback_questions (topic : String) : List String :=
  [topic ++ " 的核心概念是什么？",
   topic ++ " 的关键分歧/争议点有哪些？",
   topic ++ " 的时间线/阶段划分怎么做？"]

/-- Default deliverables list, written literally in the align fallback
plan and again in synthesize_node. -/
def default_deliverables : List String :=
  ["issue_tree", "timeline", "controversy_map", "citations"]

/-- Fallback plan built in the except branch of align_node. -/
def fallback_plan (topic err : String) : Plan :=
  { topic := some topic
    domain := some "general"
    questions := fallback_questions topic
    sources := ["web", "local_notes", "papers"]
    deliverables := some default_deliverables
    planner_error := some err }

/-- align_node of app/graph.py.  The external planner call and JSON
parse are the collaborator: they either yield a parsed plan or fail
with an exception message, which the stage catches, returning the
fallback plan. -/
def align_node (s : ResearchState) (planner : Except String Plan) : StateUpdate :=
  match planner with
  | Except.ok plan => { plan := some plan, status := some "planned" }
  | Except.error e =>
      { plan := some (fallback_plan s.topic e), status := some "planned_fallback" }

/-- route_after_align of app/graph.py: approval mode goes to the
approval node, everything else goes straight to retrieve. -/
def route_after_align (s : ResearchState) : Node :=
  if s.mode = "approval" then Node.approve_plan else Node.retrieve

/-- Payload handed to interrupt() by approve_plan_node. -/
structure InterruptPayload where
  payload_type : String
  message : String
  plan : Option Plan
deriving DecidableEq

/-- Interrupt payload built by approve_plan_node before suspending. -/
def approve_plan_payload (s : ResearchState) : InterruptPayload :=
  { payload_type := "approve_plan"
    message := "请确认研究计划是否可执行（True=通过 / False=终止）"
    plan := s.plan }

/-- Resume decision values: the resume endpoint accepts arbitrary
JSON. -/
inductive JValue where
  | null
  | bool (b : Bool)
  | str (s : String)
  | num (n : Int)
  | arr (items : List JValue)

/-- Identity test of Python (decision is True): only the boolean
literal True passes. -/
def JValue.is_literal_true : JValue → Bool
  | JValue.bool true => true
  | _ => false

/-- Command returned by approve_plan_node: goto target plus state
update, with goto restricted to retrieve or end. -/
structure Command where
  goto : Node
  update : StateUpdate
deriving DecidableEq

/-- Body of approve_plan_node after the interrupt resolves: compare the
resume value to the literal True, then either approve and go to
retrieve or reject and go to end. -/
def approve_plan_resume (decision : JValue) : Command :=
  if decision.is_literal_true then
    { goto := Node.retrieve, update := { status := some "approved" } }
  else
    { goto := Node.end_node, update := { status := some "rejected" } }

/-- The two stub evidence blocks produced by retrieve_node. -/
def stub_evidence : List Evidence :=
  [ { source_type := "web"
      title := some "Example Source 1"
      url := some "https://example.com/a"
      accessed_at := some "2026-02-25"
      snippet := some "这是一段示例摘录（将来替换为真实网页/PDF片段）"
      locator := some { typ := "url+text", hint := some "paragraph:3" } },
    { source_type := "local"
      title := some "Example Note 1"
      doc_id := some "notion:xxxx"
      snippet := some "这是一段本地笔记摘录（将来替换为 Notion/PDF 真实片段）"
      locator := some { typ := "doc+offset", offset := some 1200, length := some 80 } } ]

/-- retrieve_node of app/graph.py (the plan is read but unused in the
source). -/
def retrieve_node (_s : ResearchState) : StateUpdate :=
  { evidence := some stub_evidence, status := some "retrieved" }

/-- Python `x or d` on an optional list: the default is used both when
the field is missing and when it is the (falsy) empty list. -/
def or_default (o : Option (List String)) (d : List String) : List String :=
  match o with
  | some l => if l.isEmpty then d else l
  | none => d

/-- Citations built by `enumerate(evs)` in synthesize_node, starting at
index i. -/
def citations_from (i : Nat) : List Evidence → List Citation
  | [] => []
  | ev :: rest =>
      { ref_id := i, title := ev.title, locator := ev.locator } :: citations_from (i + 1) rest

/-- Assets dict assembled by synthesize_node: a placeholder item per
non-citation deliverable, and citations enumerated from the evidence
list (empty list when evidence is absent). -/
def synthesized_assets (s : ResearchState) : Assets :=
  { items :=
      ((or_default (s.plan.bind Plan.deliverables) default_deliverables).filter
          (fun d => d ≠ "citations")).map
        (fun d => (d, { item_type := d, topic := s.topic, status := "placeholder" }))
    citations := citations_from 0 (s.evidence.getD []) }

/-- synthesize_node of app/graph.py. -/
def synthesize_node (s : ResearchState) : StateUpdate :=
  { assets := some (synthesized_assets s), status := some "done" }

/-- The extra "end" node of build_graph: a lambda returning the state
itself, i.e. an update that rewrites every present field with its
current value. -/
def end_node (s : ResearchState) : StateUpdate :=
  { topic := some s.topic
    mode := some s.mode
    plan := s.plan
    evidence := s.evidence
    assets := s.assets
    status := s.status }

/-- Result of driving the graph from some node to either the terminal
marker or a pending interrupt: the per-node update chunks in order, the
final merged state, and the pending interrupt payload if suspended. -/
structure RunResult where
  updates : List (Node × StateUpdate)
  final : ResearchState
  pending : Option InterruptPayload
deriving DecidableEq

/-- Modelled from the spec: step-loop of the Execution Engine (the
LangGraph runtime is not part of src/) entering at synthesize, whose
unconditional edge leads to the terminal marker. -/
def run_synthesize (s : ResearchState) : RunResult :=
  let u := synthesize_node s
  { updates := [(Node.synthesize, u)], final := applyUpdate s u, pending := none }

/-- Modelled from the spec: step-loop entering at retrieve, which
proceeds unconditionally to synthesize. -/
def run_retrieve (s : ResearchState) : RunResult :=
  let u := retrieve_node s
  let r := run_synthesize (applyUpdate s u)
  { r with updates := (Node.retrieve, u) :: r.updates }

/-- Modelled from the spec: step-loop entering at the "end" node, which
proceeds unconditionally to the terminal marker. -/
def run_end (s : ResearchState) : RunResult :=
  let u := end_node s
  { updates := [(Node.end_node, u)], final := applyUpdate s u, pending := none }

/-- Modelled from the spec: interrupt detection — approve_plan_node
suspends before completing, so no update chunk is emitted and the
interrupt payload is recorded as pending. -/
def run_approve_entry (s : ResearchState) : RunResult :=
  { updates := [], final := s, pending := some (approve_plan_payload s) }

/-- Modelled from the spec: step-loop entering at align, then following
the conditional edge chosen by route_after_align on the merged
state. -/
def run_align (s : ResearchState) (planner : Except String Plan) : RunResult :=
  let u := align_node s planner
  let s1 := applyUpdate s u
  let r :=
    match route_after_align s1 with
    | Node.approve_plan => run_approve_entry s1
    | _ => run_retrieve s1
  { r with updates := (Node.align, u) :: r.updates }

/-- Initial execution state built by run_stream: topic, mode, and
status "init". -/
def initial_state (topic mode : String) : ResearchState :=
  { topic := topic, mode := mode, status := some "init" }

/-- Modelled from the spec: a full run of the graph from START on a
fresh initial state. -/
def graph_run (topic mode : String) (planner : Except String Plan) : RunResult :=
  run_align (initial_state topic mode) planner

/-- Modelled from the spec: resuming the suspended approve_plan_node
with a decision value — the stage body runs to completion yielding its
Command, whose update is applied and whose goto is followed. -/
def resume_from (s : ResearchState) (v : JValue) : RunResult :=
  let cmd := approve_plan_resume v
  let s1 := applyUpdate s cmd.update
  let r :=
    match cmd.goto with
    | Node.retrieve => run_retrieve s1
    | _ => run_end s1
  { r with updates := (Node.approve_plan, cmd.update) :: r.updates }

/-- Checkpoint: the latest durable snapshot of a thread — its execution
state and the pending interrupt marker, if any. -/
structure Checkpoint where
  state : ResearchState
  pending : Option InterruptPayload
deriving DecidableEq

/-- Latest checkpoint for a thread id in the store (most recent write
first). -/
def latest (store : List (String × Checkpoint)) (tid : String) : Option Checkpoint :=
  (store.find? (fun p => p.1 == tid)).map Prod.snd

/-- Append a checkpoint for a thread (append-only store, newest
first). -/
def put (store : List (String × Checkpoint)) (tid : String) (cp : Checkpoint) :
    List (String × Checkpoint) :=
  (tid, cp) :: store

/-- Engine-level resume failures named by the spec. -/
inductive ResumeError where
  | UnknownThread
  | NothingToResume
deriving DecidableEq

/-- Modelled from the spec: the resume contract of the Execution Engine
(section 4.2; the LangGraph runtime is not part of src/) — load the
latest checkpoint, fail with UnknownThread if none exists, fail with
NothingToResume if it carries no pending interrupt, otherwise re-enter
the suspended stage with the decision value, continue stepping, and
persist the resulting checkpoint with the interrupt cleared.  Errors
leave the store unchanged. -/
def engine_resume (store : List (String × Checkpoint)) (tid : String) (v : JValue) :
    Except ResumeError RunResult × List (String × Checkpoint) :=
  match latest store tid with
  | none => (Except.error ResumeError.UnknownThread, store)
  | some cp =>
      match cp.pending with
      | none => (Except.error ResumeError.NothingToResume, store)
      | some _ =>
          let r := resume_from cp.state v
          (Except.ok r, put store tid { state := r.final, pending := r.pending })

/-- SSE events emitted by the endpoints of app/main.py. -/
inductive Event where
  | meta (thread_id : String)
  | update (node : Node) (delta : StateUpdate)
  | interrupt (payloads : List InterruptPayload)
  | done (assets : Option Assets)
  | error (message : String)
deriving DecidableEq

/-- Snapshot read back with get_state after the stream loop: the
pending interrupts and the assets field of the state values. -/
structure Snapshot where
  interrupts : List InterruptPayload
  assets : Option Assets
deriving DecidableEq

/-- Outcome of the graph.stream call made inside gen(): either the
iteration raised (after some update chunks were already yielded), or it
finished and the snapshot is inspected. -/
inductive StreamOutcome where
  | failed (early_updates : List (Node × StateUpdate)) (message : String)
  | finished (updates : List (Node × StateUpdate)) (snap : Snapshot)
deriving DecidableEq

/-- Event sequence produced by the gen() generator shared by both
endpoints of app/main.py: first the meta event; then, on an exception,
the updates yielded so far followed by a single error event; otherwise
every update chunk (interrupt chunks are skipped by the loop), then one
interrupt event if the snapshot has pending interrupts (Python
truthiness: a nonempty list) and one done event carrying the assets
otherwise. -/
def gen_events (tid : String) (o : StreamOutcome) : List Event :=
  Event.meta tid ::
    match o with
    | StreamOutcome.failed ups msg =>
        ups.map (fun p => Event.update p.1 p.2) ++ [Event.error msg]
    | StreamOutcome.finished ups snap =>
        ups.map (fun p => Event.update p.1 p.2) ++
          (if snap.interrupts.isEmpty then [Event.done snap.assets]
           else [Event.interrupt snap.interrupts])

/-- RunRequest of app/main.py: topic plus an arbitrary mode string
defaulting to "approval". -/
structure RunRequest where
  topic : String
  mode : String := "approval"
deriving DecidableEq

/-- Snapshot outcome of a completed graph run: the pending interrupt
(as the interrupts list) and the assets of the final state. -/
def outcome_of_run (r : RunResult) : StreamOutcome :=
  StreamOutcome.finished r.updates
    { interrupts := r.pending.toList, assets := r.final.assets }

/-- run_stream endpoint of app/main.py (lines 67 to 97).  The source
builds the initial inputs and the thread config but then invokes
graph.stream with a bare Ellipsis literal and no config at all
(line 79: `for chunk in graph.stream(...)`), leaving inputs and config
unused.  A graph compiled with a checkpointer rejects a stream call
that carries no configurable thread id before any node executes, so
the loop raises on its first step: no update chunk is ever yielded and
the error branch fires.  The message of that engine exception is the
err parameter. -/
def run_stream_events (tid : String) (req : RunRequest) (err : String) : List Event :=
  let _inputs := initial_state req.topic req.mode
  gen_events tid (StreamOutcome.failed [] err)

/-- Error message carried by the error event when resume fails at the
engine level. -/
def resume_error_message : ResumeError → String
  | ResumeError.UnknownThread => "UnknownThread"
  | ResumeError.NothingToResume => "NothingToResume"

/-- Stream outcome of a resume call: engine failures raise before any
chunk is yielded; success streams the update chunks and then inspects
the snapshot. -/
def resume_outcome : Except ResumeError RunResult → StreamOutcome
  | Except.error e => StreamOutcome.failed [] (resume_error_message e)
  | Except.ok r => outcome_of_run r

/-- resume_stream endpoint of app/main.py (lines 99 to 126): stream the
graph with Command(resume=value) on the config of the thread, emitting the
gen() event sequence, and return the store as updated by the engine. -/
def resume_stream_events (store : List (String × Checkpoint)) (tid : String) (v : JValue) :
    List Event × List (String × Checkpoint) :=
  (gen_events tid (resume_outcome (engine_resume store tid v).1),
   (engine_resume store tid v).2)

/-- Terminal events of the stream protocol. -/
def Event.is_terminal : Event → Bool
  | Event.done _ => true
  | Event.interrupt _ => true
  | Event.error _ => true
  | _ => false

/-- Error events. -/
def Event.is_error : Event → Bool
  | Event.error _ => true
  | _ => false

/-- Done events. -/
def Event.is_done : Event → Bool
  | Event.done _ => true
  | _ => false

/-- Concrete fallback plan used by the sample fixtures below. -/
def sample_plan : Plan := fallback_plan "Roman Empire" "planner down"

/-- Concrete state of a thread suspended at the approval interrupt:
align has run (fallback branch) and approve_plan has suspended. -/
def sample_suspended : ResearchState :=
  { topic := "Roman Empire", mode := "approval", plan := some sample_plan,
    status := some "planned_fallback" }

/-- Interrupt payload of the sample suspended thread. -/
def sample_payload : InterruptPayload := approve_plan_payload sample_suspended

/-- Latest checkpoint of the sample suspended thread. -/
def sample_checkpoint : Checkpoint :=
  { state := sample_suspended, pending := some sample_payload }

/-- Store holding exactly the sample suspended thread under id t1. -/
def sample_store : List (String × Checkpoint) := [("t1", sample_checkpoint)]

/-- Concrete state entering the synthesize stage with the stub
evidence. -/
def sample_ev_state : ResearchState :=
  { topic := "Roman Empire", mode := "auto", evidence := some stub_evidence }

/-- First citation produced for the stub evidence. -/
def sample_first_citation : Citation :=
  { ref_id := 0, title := some "Example Source 1",
    locator := some { typ := "url+text", hint := some "paragraph:3" } }

/-- Update events are never terminal, whatever chunks the loop
yielded. -/
theorem update_events_not_terminal (ups : List (Node × StateUpdate)) :
    (ups.map (fun p => Event.update p.1 p.2)).filter Event.is_terminal = [] := by
  induction ups with
  | nil => rfl
  | cons hd tl ih => simpa [Event.is_terminal] using ih

/-- Update events are never error events. -/
theorem update_events_no_error (ups : List (Node × StateUpdate)) :
    (ups.map (fun p => Event.update p.1 p.2)).filter Event.is_error = [] := by
  induction ups with
  | nil => rfl
  | cons hd tl ih => simpa [Event.is_error] using ih

/-- A stream whose engine iteration finished never carries an error
event. -/
theorem finished_events_no_error (tid : String) (ups : List (Node × StateUpdate))
    (snap : Snapshot) :
    (gen_events tid (StreamOutcome.finished ups snap)).filter Event.is_error = [] := by
  by_cases hi : snap.interrupts.isEmpty <;>
    simp [gen_events, List.filter_append, update_events_no_error, Event.is_error, hi]

/-- Every gen() event sequence carries exactly one terminal event. -/
theorem gen_events_one_terminal (tid : String) (o : StreamOutcome) :
    ((gen_events tid o).filter Event.is_terminal).length = 1 := by
  cases o with
  | failed ups msg =>
      simp [gen_events, List.filter_append, update_events_not_terminal, Event.is_terminal]
  | finished ups snap =>
      by_cases hi : snap.interrupts.isEmpty <;>
        simp [gen_events, List.filter_append, update_events_not_terminal, Event.is_terminal, hi]

/-- Resuming the approval stage never leaves another pending interrupt:
both continuations (retrieve then synthesize, or end) run to the
terminal marker. -/
theorem resume_from_pending_none (s : ResearchState) (v : JValue) :
    (resume_from s v).pending = none := by
  cases hv : v.is_literal_true <;>
    simp [resume_from, approve_plan_resume, hv, run_retrieve, run_synthesize, run_end]

/-- Citations enumerated from index i point below i plus the length of
the enumerated list. -/
theorem citations_from_ref_lt (i : Nat) (evs : List Evidence) (c : Citation)
    (hc : c ∈ citations_from i evs) : c.ref_id < i + evs.length := by
  induction evs generalizing i with
  | nil => cases hc
  | cons ev rest ih =>
      rcases List.mem_cons.mp hc with h | h
      · subst h
        simp only [List.length_cons]
        omega
      · have := ih (i + 1) h
        simp only [List.length_cons]
        omega

/-- C1: a run started with mode="approval" is claimed to place exactly
one interrupt event in its stream before any resume; the run_stream
endpoint instead raises inside the engine before any stage executes
(graph.stream is invoked with an Ellipsis and no config), so the stream
is just the meta event followed by an error event and contains no
interrupt event at all. -/
theorem c1_approval_start_has_no_interrupt_event :
    run_stream_events "t1" { topic := "Roman Empire", mode := "approval" } "engine config error" =
      [Event.meta "t1", Event.error "engine config error"] ∧
    (run_stream_events "t1" { topic := "Roman Empire", mode := "approval" }
        "engine config error").filter Event.is_terminal =
      [Event.error "engine config error"] :=
  ⟨rfl, rfl⟩

/-- C2: for topic "Roman Empire" and mode "auto" the claimed stream is
meta, three stage updates and done; the run_stream endpoint instead
yields only the meta event and an error event, because graph.stream is
invoked with an Ellipsis and no config and raises before the align
stage runs. -/
theorem c2_auto_start_yields_meta_then_error :
    run_stream_events "t1" { topic := "Roman Empire", mode := "auto" } "engine config error" =
      [Event.meta "t1", Event.error "engine config error"] :=
  rfl

/-- C8: every stream produced by the gen() generator — hence every
run_stream and resume_stream response — begins with the meta event and
carries exactly one terminal event, which is a done, interrupt or error
event, so the three are mutually exclusive within one invocation. -/
theorem c8_exactly_one_terminal_event (tid : String) (o : StreamOutcome) (req : RunRequest)
    (err : String) (store : List (String × Checkpoint)) (v : JValue) :
    ((gen_events tid o).filter Event.is_terminal).length = 1 ∧
    (gen_events tid o).head? = some (Event.meta tid) ∧
    ((run_stream_events tid req err).filter Event.is_terminal).length = 1 ∧
    (((resume_stream_events store tid v).1).filter Event.is_terminal).length = 1 ∧
    ((resume_stream_events store tid v).1).head? = some (Event.meta tid) :=
  ⟨gen_events_one_terminal tid o, rfl,
   gen_events_one_terminal tid (StreamOutcome.failed [] err),
   gen_events_one_terminal tid (resume_outcome (engine_resume store tid v).1), rfl⟩

/-- C9: the approval stage compares the resume decision to the literal
boolean true; any other value — of any JSON shape — is treated as a
rejection, setting status to "rejected" and routing to the end
stage. -/
theorem c9_non_true_decision_rejects (v : JValue) (h : v ≠ JValue.bool true) :
    approve_plan_resume v =
      { goto := Node.end_node, update := { status := some "rejected" } } := by
  have hb : v.is_literal_true = false := by
    cases v with
    | null => rfl
    | bool b =>
        cases b with
        | true => exact absurd rfl h
        | false => rfl
    | str s => rfl
    | num n => rfl
    | arr items => rfl
  simp [approve_plan_resume, hb]

/-- Witness for C9 at the concrete non-boolean decision "yes". -/
theorem c9_witness :
    JValue.str "yes" ≠ JValue.bool true ∧
    approve_plan_resume (JValue.str "yes") =
      { goto := Node.end_node, update := { status := some "rejected" } } :=
  ⟨fun h => JValue.noConfusion h,
   c9_non_true_decision_rejects (JValue.str "yes") (fun h => JValue.noConfusion h)⟩

/-- C10: the run-submission interface types mode as an arbitrary
string, and after the align stage any mode other than exactly
"approval" routes straight to retrieve — an unrecognized mode behaves
exactly like mode="auto" instead of being rejected. -/
theorem c10_any_mode_string_routes_like_auto (t m : String) (s : ResearchState)
    (h : s.mode ≠ "approval") :
    (RunRequest.mk t m).mode = m ∧
    route_after_align s = Node.retrieve ∧
    route_after_align s = route_after_align { s with mode := "auto" } := by
  refine ⟨rfl, ?_, ?_⟩
  · simp [route_after_align, h]
  · simp [route_after_align, h]

/-- C3: resuming a thread suspended at the approval interrupt with the
value true succeeds, sets status to "approved" in the update of the
approval stage, then executes the retrieve and synthesize stages, and
the resume stream ends with a done event. -/
theorem c3_resume_true_approves_and_completes (store : List (String × Checkpoint))
    (tid : String) (cp : Checkpoint) (p : InterruptPayload)
    (hlatest : latest store tid = some cp) (hpending : cp.pending = some p) :
    ∃ r st,
      engine_resume store tid (JValue.bool true) = (Except.ok r, st) ∧
      r.updates.map Prod.fst = [Node.approve_plan, Node.retrieve, Node.synthesize] ∧
      r.updates.map (fun u => u.2.status) = [some "approved", some "retrieved", some "done"] ∧
      r.final.status = some "done" ∧
      ((resume_stream_events store tid (JValue.bool true)).1.getLast?.map Event.is_done) =
        some true := by
  refine ⟨resume_from cp.state (JValue.bool true),
    put store tid { state := (resume_from cp.state (JValue.bool true)).final,
                    pending := (resume_from cp.state (JValue.bool true)).pending },
    ?_, rfl, rfl, rfl, ?_⟩
  · simp [engine_resume, hlatest, hpending]
  · simp only [resume_stream_events, engine_resume, hlatest, hpending]
    rfl

/-- Witness for C3 at the concrete suspended sample thread. -/
theorem c3_witness :
    latest sample_store "t1" = some sample_checkpoint ∧
    sample_checkpoint.pending = some sample_payload ∧
    (∃ r st,
      engine_resume sample_store "t1" (JValue.bool true) = (Except.ok r, st) ∧
      r.updates.map Prod.fst = [Node.approve_plan, Node.retrieve, Node.synthesize] ∧
      r.updates.map (fun u => u.2.status) = [some "approved", some "retrieved", some "done"] ∧
      r.final.status = some "done" ∧
      ((resume_stream_events sample_store "t1" (JValue.bool true)).1.getLast?.map
          Event.is_done) = some true) :=
  ⟨rfl, rfl,
   c3_resume_true_approves_and_completes sample_store "t1" sample_checkpoint sample_payload
     rfl rfl⟩

/-- C4: resuming a thread suspended at the approval interrupt with the
value false sets status to "rejected", routes through the end node
only — the retrieve and synthesize stages never execute — leaves the
assets field absent when it was absent at suspension, and the resume
stream still ends with the terminal done event. -/
theorem c4_resume_false_rejects_without_retrieve (store : List (String × Checkpoint))
    (tid : String) (cp : Checkpoint) (p : InterruptPayload)
    (hlatest : latest store tid = some cp) (hpending : cp.pending = some p)
    (hassets : cp.state.assets = none) :
    ∃ r st,
      engine_resume store tid (JValue.bool false) = (Except.ok r, st) ∧
      r.updates.map Prod.fst = [Node.approve_plan, Node.end_node] ∧
      Node.retrieve ∉ r.updates.map Prod.fst ∧
      Node.synthesize ∉ r.updates.map Prod.fst ∧
      r.final.status = some "rejected" ∧
      r.final.assets = none ∧
      ((resume_stream_events store tid (JValue.bool false)).1.getLast?.map Event.is_done) =
        some true := by
  refine ⟨resume_from cp.state (JValue.bool false),
    put store tid { state := (resume_from cp.state (JValue.bool false)).final,
                    pending := (resume_from cp.state (JValue.bool false)).pending },
    ?_, rfl,
    show Node.retrieve ∉ [Node.approve_plan, Node.end_node] by decide,
    show Node.synthesize ∉ [Node.approve_plan, Node.end_node] by decide,
    rfl, ?_, ?_⟩
  · simp [engine_resume, hlatest, hpending]
  · show (resume_from cp.state (JValue.bool false)).final.assets = none
    simp [resume_from, approve_plan_resume, JValue.is_literal_true, run_end, end_node,
      applyUpdate, orOpt, hassets]
  · simp only [resume_stream_events, engine_resume, hlatest, hpending]
    rfl

/-- Witness for C4 at the concrete suspended sample thread (whose
assets field is absent). -/
theorem c4_witness :
    latest sample_store "t1" = some sample_checkpoint ∧
    sample_checkpoint.pending = some sample_payload ∧
    sample_checkpoint.state.assets = none ∧
    (∃ r st,
      engine_resume sample_store "t1" (JValue.bool false) = (Except.ok r, st) ∧
      r.updates.map Prod.fst = [Node.approve_plan, Node.end_node] ∧
      Node.retrieve ∉ r.updates.map Prod.fst ∧
      Node.synthesize ∉ r.updates.map Prod.fst ∧
      r.final.status = some "rejected" ∧
      r.final.assets = none ∧
      ((resume_stream_events sample_store "t1" (JValue.bool false)).1.getLast?.map
          Event.is_done) = some true) :=
  ⟨rfl, rfl, rfl,
   c4_resume_false_rejects_without_retrieve sample_store "t1" sample_checkpoint sample_payload
     rfl rfl rfl⟩

/-- C5: resume on a thread id with no checkpoint fails with
UnknownThread and leaves the store unchanged; after a first successful
resume has cleared the pending interrupt, a second resume on the same
thread fails with NothingToResume and applies no further state change
(the store it returns is exactly the one it was given). -/
theorem c5_second_resume_rejected (store : List (String × Checkpoint)) (tid tid2 : String)
    (cp : Checkpoint) (p : InterruptPayload) (v w : JValue)
    (hlatest : latest store tid = some cp) (hpending : cp.pending = some p)
    (hnone : latest store tid2 = none) :
    engine_resume store tid2 w = (Except.error ResumeError.UnknownThread, store) ∧
    ∃ r st, engine_resume store tid v = (Except.ok r, st) ∧
      engine_resume st tid w = (Except.error ResumeError.NothingToResume, st) := by
  refine ⟨by simp [engine_resume, hnone],
    ⟨resume_from cp.state v,
     put store tid { state := (resume_from cp.state v).final,
                     pending := (resume_from cp.state v).pending },
     by simp [engine_resume, hlatest, hpending], ?_⟩⟩
  simp [engine_resume, latest, put, List.find?, resume_from_pending_none]

/-- Witness for C5: the sample suspended thread resumed twice, and a
resume on an unknown thread id. -/
theorem c5_witness :
    latest sample_store "t1" = some sample_checkpoint ∧
    sample_checkpoint.pending = some sample_payload ∧
    latest sample_store "missing" = none ∧
    (engine_resume sample_store "missing" (JValue.bool true) =
        (Except.error ResumeError.UnknownThread, sample_store) ∧
      ∃ r st,
        engine_resume sample_store "t1" (JValue.bool true) = (Except.ok r, st) ∧
        engine_resume st "t1" (JValue.bool true) =
          (Except.error ResumeError.NothingToResume, st)) :=
  ⟨rfl, rfl, rfl,
   c5_second_resume_rejected sample_store "t1" "missing" sample_checkpoint sample_payload
     (JValue.bool true) (JValue.bool true) rfl rfl rfl⟩

/-- C6: in the final state produced by the synthesize stage, every
citation in assets.citations has a ref_id that is a valid index of the
evidence list of that state — citations never dangle. -/
theorem c6_citations_never_dangle (s : ResearchState) (a : Assets) (c : Citation)
    (ha : (run_synthesize s).final.assets = some a) (hc : c ∈ a.citations) :
    c.ref_id < ((run_synthesize s).final.evidence.getD []).length := by
  have ha2 : synthesized_assets s = a := Option.some.inj ha
  subst ha2
  have hlt := citations_from_ref_lt 0 (s.evidence.getD []) c hc
  have hev : ((run_synthesize s).final.evidence.getD []).length =
      (s.evidence.getD []).length := rfl
  rw [hev]
  omega

/-- Witness for C6 at the sample pre-synthesis state with the stub
evidence and its first citation. -/
theorem c6_witness :
    (run_synthesize sample_ev_state).final.assets =
      some (synthesized_assets sample_ev_state) ∧
    sample_first_citation ∈ (synthesized_assets sample_ev_state).citations ∧
    sample_first_citation.ref_id <
      ((run_synthesize sample_ev_state).final.evidence.getD []).length :=
  ⟨rfl, by decide,
   c6_citations_never_dangle sample_ev_state (synthesized_assets sample_ev_state)
     sample_first_citation rfl (by decide)⟩

/-- C7: when the planner collaborator fails, the align stage returns
the deterministic fallback plan — fixed domain, questions derived from
the topic, fixed sources and deliverables — the run continues, and the
stream of the resulting graph run never carries an error event. -/
theorem c7_planner_failure_falls_back (s : ResearchState) (e tid : String) :
    align_node s (Except.error e) =
      { plan := some (fallback_plan s.topic e), status := some "planned_fallback" } ∧
    fallback_plan s.topic e =
      { topic := some s.topic, domain := some "general",
        questions := fallback_questions s.topic,
        sources := ["web", "local_notes", "papers"],
        deliverables := some default_deliverables, planner_error := some e } ∧
    (gen_events tid (outcome_of_run (run_align s (Except.error e)))).filter Event.is_error =
      [] :=
  ⟨rfl, rfl, finished_events_no_error tid _ _⟩

/-- Witness for C10 at the concrete unrecognized mode "banana". -/
theorem c10_witness :
    (initial_state "x" "banana").mode ≠ "approval" ∧
    ((RunRequest.mk "x" "banana").mode = "banana" ∧
      route_after_align (initial_state "x" "banana") = Node.retrieve ∧
      route_after_align (initial_state "x" "banana") =
        route_after_align { initial_state "x" "banana" with mode := "auto" }) :=
  ⟨by decide,
   c10_any_mode_string_routes_like_auto "x" "banana" (initial_state "x" "banana") (by decide)⟩

end App
